import Mathlib

/-!
Verification development for the `pull_and_dump` module of the
college-football dashboard repository.  The Python source in
`src/utils/pull_and_dump.py` is shallowly embedded below: pure logic
(URL construction, JSON normalization, CSV rendering) becomes Lean
functions, and the effectful pipeline becomes a function producing an
explicit event trace together with the updated destination-table state
and the Python return value (or the propagated exception).
-/

namespace CFB

/-- JSON values, as produced by `response.json()` in the source. -/
inductive Json where
  | str (s : String)
  | num (n : Int)
  | bool (b : Bool)
  | null
  | arr (elements : List Json)
  | obj (fields : List (String × Json))

/-- A row of the normalized table: an ordered association of column
names to JSON cell values (arrays and scalars; never objects once
flattened). -/
abbrev Row := List (String × Json)

/-- The in-memory table produced by one API fetch. -/
abbrev Table := List Row

/-- Key joining used by `pandas.json_normalize` with its default
separator: a nested key `k` under prefix `pre` becomes `pre.k`. -/
def dotKey (pre k : String) : String :=
  if pre = "" then k else pre ++ "." ++ k

/-- Flattening of a JSON object's field list as `pandas.json_normalize`
performs it: nested objects are recursed into with dotted keys, while
scalars and arrays are kept as cell values. -/
def flattenFields (pre : String) : List (String × Json) → List (String × Json)
  | [] => []
  | (k, Json.obj inner) :: rest =>
      flattenFields (dotKey pre k) inner ++ flattenFields pre rest
  | (k, v) :: rest => (dotKey pre k, v) :: flattenFields pre rest
termination_by l => sizeOf l
decreasing_by all_goals (simp_wf; try omega)

/-- One record of the top-level JSON value becomes one row; a record
must be an object (for anything else `json_normalize` raises). -/
def rowOf : Json → Option Row
  | Json.obj fields => some (flattenFields "" fields)
  | _ => none

/-- Embedding of `pandas.json_normalize` applied to a decoded JSON
payload: a top-level array yields one row per element, a top-level
object yields a single row, and any other payload raises (`none`). -/
def jsonNormalize : Json → Option Table
  | Json.arr elements => elements.mapM rowOf
  | Json.obj fields => some [flattenFields "" fields]
  | _ => none

/-- Uppercasing of one row's column names, embedding
`df.columns = map(str.upper, df.columns)`; cell values are untouched. -/
def upperRow (r : Row) : Row :=
  r.map (fun kv => (kv.1.toUpper, kv.2))

/-- An HTTP response as seen by the source: a status code and a decoded
JSON body. -/
structure Response where
  status_code : Nat
  body : Json

/-- Errors raised inside `pull_data_from_api`: the explicit
`raise Exception(f"Failed to fetch ... Status code: ...")` on a non-200
status (the message carries the status code, embedded here as the
payload), and a JSON-normalization failure. -/
inductive ApiError where
  | requestFailed (status : Nat)
  | invalidJson
deriving DecidableEq, Repr

/-- Embedding of `pull_data_from_api` (lines 14-53 of the source): on
status 200 the body is normalized and the column names are uppercased;
on any other status the raised exception carries the status code and no
table is returned. -/
def pull_data_from_api (resp : Response) : Except ApiError Table :=
  if resp.status_code = 200 then
    match jsonNormalize resp.body with
    | some rows => Except.ok (rows.map upperRow)
    | none => Except.error ApiError.invalidJson
  else
    Except.error (ApiError.requestFailed resp.status_code)

/-- Python exceptions that can occur during URL construction: the
IndexError from `arg["Value"][n]` when the value list is too short. -/
inductive PyError where
  | indexError
deriving DecidableEq, Repr

/-- The API base both pipeline variants prepend to the category. -/
def apiBase : String := "https://api.collegefootballdata.com/"

/-- The enumerate-loop of the source (lines 198-203 and 253-258): for
the n-th search key the n-th value is looked up (IndexError if absent)
and appended as `?key=value` for n = 0 and `&key=value` afterwards. -/
def appendFilters (value : List String) :
    String → Nat → List String → Except PyError String
  | url, _, [] => Except.ok url
  | url, n, s :: rest =>
      match value.get? n with
      | some v =>
          appendFilters value
            (url ++ (if n == 0 then "?" else "&") ++ s ++ "=" ++ v) (n + 1) rest
      | none => Except.error PyError.indexError

/-- URL construction shared by `pull_and_dump_data` and `main`: base
plus category, then the filter loop, which is skipped entirely when the
search list is empty (Python falsiness of `arg["Search"]`). -/
def buildURL (category : String) (search value : List String) :
    Except PyError String :=
  let url := apiBase ++ category
  if search.isEmpty then Except.ok url else appendFilters value url 0 search

/-- Rendering of the second and later filters, `&key=value` each, in
order; written from the specification's wording for the refinement
proof about `buildURL`. -/
def ampString : List (String × String) → String
  | [] => ""
  | (k, v) :: rest => "&" ++ k ++ "=" ++ v ++ ampString rest

/-- Rendering of a whole filter list as the specification describes the
query string: first pair as `?key=value`, subsequent pairs as
`&key=value`, in input order; empty list gives no query string. -/
def specQueryString : List (String × String) → String
  | [] => ""
  | (k, v) :: rest => "?" ++ k ++ "=" ++ v ++ ampString rest

/-- Number of occurrences of a character in a string. -/
def countSep (s : String) (c : Char) : Nat := s.data.count c

/-- A string free of the URL separator characters. -/
def cleanStr (s : String) : Prop := ('?' ∈ s.data → False) ∧ ('&' ∈ s.data → False)

instance (s : String) : Decidable (cleanStr s) := by
  unfold cleanStr; infer_instance

/-- Observable actions of one pipeline invocation, in program order:
console prints, the outbound HTTP request, the Snowflake connection
lifecycle, and CSV writes (recording the target path and whether
`to_csv` was called with its default `index=True`). -/
inductive Event where
  | printUrl (url : String)
  | httpGet (url : String)
  | printMsg (msg : String)
  | snowflakeConnect
  | useWarehouse (w : String)
  | useDatabase (d : String)
  | useSchema (s : String)
  | writeAttempt (table : String)
  | commit
  | closeConn
  | writeCsv (path : String) (withIndex : Bool)
deriving DecidableEq, Repr

/-- Effect of `snowflake.connector.pandas_tools.write_pandas` on the
destination table, with `overwrite` left at its default `False` (as in
both call sites of the source): rows are inserted into an existing
table (append), and a missing table is created first only when
`auto_create_table` is true, otherwise the call raises.  An external
failure (network, type error during the bulk copy) also raises. -/
def write_pandas_model (existing : Option Table) (df : Table)
    (autoCreateTable : Bool) (libRaises : Bool) :
    Except Unit (Option Table × Bool) :=
  if libRaises then Except.error ()
  else
    match existing with
    | some t => Except.ok (some (t ++ df), true)
    | none =>
        if autoCreateTable then Except.ok (some df, true) else Except.error ()

/-- Snowflake connection context (warehouse, database, schema) read
from the environment by the source. -/
structure SnowConn where
  warehouse : String
  database : String
  schema : String
deriving DecidableEq, Repr

/-- Embedding of `dump_to_snowflake` (lines 114-158): connect, then in
a `try` block issue the three `USE` statements, call `write_pandas`
(default `auto_create_table=False`), and commit; the `finally` clause
closes the connection on every exit path.  Returns the event trace, the
updated destination table, and whether the call completed without an
exception (`false` propagates the exception to the caller). -/
def dump_to_snowflake (conn : SnowConn) (df : Table) (table_name : String)
    (existing : Option Table) (ctxFails writeRaises : Bool) :
    List Event × Option Table × Bool :=
  if ctxFails then
    ([Event.snowflakeConnect, Event.useWarehouse conn.warehouse,
      Event.closeConn], existing, false)
  else
    let ctx := [Event.snowflakeConnect, Event.useWarehouse conn.warehouse,
                Event.useDatabase conn.database, Event.useSchema conn.schema]
    match write_pandas_model existing df false writeRaises with
    | Except.error _ =>
        (ctx ++ [Event.writeAttempt table_name, Event.closeConn],
         existing, false)
    | Except.ok (newT, _) =>
        (ctx ++ [Event.writeAttempt table_name, Event.commit, Event.closeConn],
         newT, true)

/-- Relational-database connection parameters used by
`dump_to_postgres` to build the SQLAlchemy URL. -/
structure PostgresParams where
  host : String
  port : Nat
  username : String
  password : String
  database : String
deriving DecidableEq, Repr

/-- Embedding of `dump_to_postgres` (lines 79-111): the write is
`df.to_sql(table_name, engine, if_exists='replace')`, which replaces
any pre-existing table of the same name with exactly the frame's rows.
Returns the new destination-table state. -/
def dump_to_postgres (_p : PostgresParams) (_existing : Option Table)
    (df : Table) (_table_name : String) : Option Table :=
  some df

/-- Argument dictionary consumed by `pull_and_dump_data`: the keys
Category, Search, Value and File are accessed directly, while Export
and Table are read with `.get` and may be absent. -/
structure DictArg where
  Category : String
  Search : List String
  Value : List String
  Export : Option Bool
  Table : Option String
  File : String

/-- Argparse namespace produced for `main`: every flag except the
required Category may be absent (argparse default `None`). -/
structure CliArgs where
  Category : String
  Search : Option (List String)
  Value : Option (List String)
  File : Option String
  Export : Option String
  Table : Option String
deriving DecidableEq, Repr

/-- Command line as supplied: which flags were given, with their
values. -/
structure CliInput where
  Category : Option String
  Search : Option (List String)
  Value : Option (List String)
  File : Option String
  Export : Option String
  Table : Option String
deriving DecidableEq, Repr

/-- Argparse declaration record: flag name, whether `required=True`
was passed, and whether the flag takes `nargs='+'`. -/
structure ArgSpec where
  name : String
  required : Bool
  takesMultiple : Bool
deriving DecidableEq, Repr

/-- The six `add_argument` calls of the `__main__` block (lines
293-301): only Category is declared required; every other flag is
optional with argparse's default `None` and no declared default
value. -/
def argumentSpecs : List ArgSpec :=
  [⟨"Category", true, false⟩, ⟨"Search", false, true⟩,
   ⟨"Value", false, true⟩, ⟨"File", false, false⟩,
   ⟨"Export", false, false⟩, ⟨"Table", false, false⟩]

/-- Argparse error for a missing required flag. -/
inductive ArgparseError where
  | missingRequired (flag : String)
deriving DecidableEq, Repr

/-- Embedding of `parser.parse_args()`: parsing fails only when the
required Category flag is missing; all other flags pass through
unchanged, absent ones as `none`, with no value conversion (in
particular Export stays the literal string supplied). -/
def parse_args (inp : CliInput) : Except ArgparseError CliArgs :=
  match inp.Category with
  | none => Except.error (ArgparseError.missingRequired "Category")
  | some c => Except.ok ⟨c, inp.Search, inp.Value, inp.File, inp.Export, inp.Table⟩

/-- Python truthiness of an optional list (`None` and `[]` are falsy). -/
def truthyOptList : Option (List String) → Bool
  | none => false
  | some l => !l.isEmpty

/-- Python truthiness of an optional string (`None` and the empty
string are falsy). -/
def truthyOptStr : Option String → Bool
  | none => false
  | some s => s != ""

/-- Python truthiness of an optional bool (`None` is falsy). -/
def truthyOptBool : Option Bool → Bool
  | none => false
  | some b => b

/-- Return value of the two pipeline functions: the string 'Success'
on the CSV path, or the boolean export-success flag. -/
inductive PyResult where
  | str (s : String)
  | bool (b : Bool)
deriving DecidableEq, Repr

/-- Exceptions that can propagate out of a pipeline invocation. -/
inductive PipeError where
  | py (e : PyError)
  | api (e : ApiError)
  | snowflakeError
  | typeError
deriving DecidableEq, Repr

/-- External circumstances of one invocation: the HTTP response the
API returns, the Snowflake context parameters from the environment,
the pre-existing state of the destination table, and whether the
context statements or the bulk write raise. -/
structure World where
  resp : Response
  snow : SnowConn
  existing : Option Table
  ctxFails : Bool
  writeRaises : Bool

/-- Embedding of `pull_and_dump_data` (lines 161-224): build the URL
(an IndexError there propagates before anything is printed), print it,
fetch, then either dump to Snowflake — table name
`arg.get("Table", "default_table_name")` — returning `True`, or write
`<File>.csv` via `df.to_csv` with its default `index=True` and return
'Success'. -/
def pull_and_dump_data (arg : DictArg) (w : World) :
    List Event × Option Table × Except PipeError PyResult :=
  match buildURL arg.Category arg.Search arg.Value with
  | Except.error e => ([], w.existing, Except.error (PipeError.py e))
  | Except.ok url =>
    let ev := [Event.printUrl url, Event.httpGet url]
    match pull_data_from_api w.resp with
    | Except.error e => (ev, w.existing, Except.error (PipeError.api e))
    | Except.ok df =>
      if truthyOptBool arg.Export then
        let tname := arg.Table.getD "default_table_name"
        let r := dump_to_snowflake w.snow df tname w.existing w.ctxFails w.writeRaises
        if r.2.2 then
          (ev ++ Event.printMsg "Dumping to Snowflake..." :: r.1, r.2.1,
           Except.ok (PyResult.bool true))
        else
          (ev ++ Event.printMsg "Dumping to Snowflake..." :: r.1, r.2.1,
           Except.error PipeError.snowflakeError)
      else
        (ev ++ [Event.writeCsv (arg.File ++ ".csv") true], w.existing,
         Except.ok (PyResult.str "Success"))

/-- Embedding of `main` (lines 227-287): same URL construction and
fetch; on a truthy Export string it connects to Snowflake (context via
connection parameters only — no USE statements) and calls
`write_pandas(conn, df, arg.Table, auto_create_table=True)`, closing
the connection and returning the success flag only when the write does
not raise (a `None` table name raises a TypeError inside the library);
otherwise it writes `<File>.csv` with default `index=True` (a missing
File renders as the string 'None') and returns 'Success'. -/
def main (arg : CliArgs) (w : World) :
    List Event × Option Table × Except PipeError PyResult :=
  let searchList := if truthyOptList arg.Search then arg.Search.getD [] else []
  match buildURL arg.Category searchList (arg.Value.getD []) with
  | Except.error e => ([], w.existing, Except.error (PipeError.py e))
  | Except.ok url =>
    let ev := [Event.printUrl url, Event.httpGet url]
    match pull_data_from_api w.resp with
    | Except.error e => (ev, w.existing, Except.error (PipeError.api e))
    | Except.ok df =>
      if truthyOptStr arg.Export then
        let pre := ev ++ [Event.printMsg "To Snowflake...", Event.snowflakeConnect]
        match arg.Table with
        | none => (pre, w.existing, Except.error PipeError.typeError)
        | some t =>
          match write_pandas_model w.existing df true w.writeRaises with
          | Except.error _ =>
              (pre ++ [Event.writeAttempt t], w.existing,
               Except.error PipeError.snowflakeError)
          | Except.ok (newT, flag) =>
              (pre ++ [Event.writeAttempt t, Event.closeConn], newT,
               Except.ok (PyResult.bool flag))
      else
        (ev ++ [Event.writeCsv ((arg.File.getD "None") ++ ".csv") true],
         w.existing, Except.ok (PyResult.str "Success"))

/-- A rectangular frame with its cells already rendered to text, the
shape `DataFrame.to_csv` serializes. -/
structure Frame where
  columns : List String
  rows : List (List String)
deriving DecidableEq, Repr

/-- Comma-joining of one CSV line. -/
def joinComma : List String → String
  | [] => ""
  | [c] => c
  | c :: rest => c ++ "," ++ joinComma rest

/-- Lines produced by `DataFrame.to_csv`: with `index=True` (the
pandas default) the header gains a leading empty cell and every data
line a leading row label; with `index=False` the header is exactly the
column names and each data line exactly the row's cells. -/
def csvLines (df : Frame) (index : Bool) : List String :=
  let header := if index then "" :: df.columns else df.columns
  let body := df.rows.enum.map
    (fun ir => if index then toString ir.1 :: ir.2 else ir.2)
  (header :: body).map joinComma

/-- Serialized CSV text: every line is newline-terminated. -/
def to_csv (df : Frame) (index : Bool) : String :=
  (csvLines df index).foldr (fun l acc => l ++ "\n" ++ acc) ""

/-- Embedding of `dump_to_csv` (lines 56-76): writes
`df.to_csv(output_file, index=False)` — the exact path given, no
index column.  Returns the (path, content) pair written. -/
def dump_to_csv (df : Frame) (output_file : String) : String × String :=
  (output_file, to_csv df false)

/-- Objecthood test for flattened cell values. -/
def Json.isObj : Json → Bool
  | Json.obj _ => true
  | _ => false

lemma appendFilters_tail (value : List String) :
    ∀ (s : List String) (n : Nat) (url : String), 1 ≤ n →
      n + s.length ≤ value.length →
      appendFilters value url n s =
        Except.ok (url ++ ampString (s.zip (value.drop n))) := by
  intro s
  induction s with
  | nil =>
      intro n url _ _
      simp [appendFilters, ampString, String.append_empty]
  | cons k rest ih =>
      intro n url hn hlen
      simp only [List.length_cons] at hlen
      have hlt : n < value.length := by omega
      have hget : value.get? n = some (value.get ⟨n, hlt⟩) := List.get?_eq_get hlt
      have hne : (n == 0) = false := by
        simp only [beq_eq_false_iff_ne, ne_eq]
        omega
      simp only [appendFilters, hget, hne, Bool.false_eq_true, if_false]
      rw [ih (n + 1) _ (by omega) (by omega)]
      rw [List.drop_eq_getElem_cons hlt, List.zip_cons_cons]
      simp only [ampString]
      congr 1
      simp [String.append_assoc, List.get_eq_getElem]

lemma buildURL_spec (category : String) (search value : List String)
    (hlen : search.length ≤ value.length) :
    buildURL category search value =
      Except.ok (apiBase ++ category ++ specQueryString (search.zip value)) := by
  cases search with
  | nil => simp [buildURL, specQueryString, String.append_empty]
  | cons k rest =>
      simp only [List.length_cons] at hlen
      obtain ⟨v0, vrest, rfl⟩ : ∃ v0 vrest, value = v0 :: vrest := by
        cases value with
        | nil => exact absurd hlen (by simp)
        | cons a l => exact ⟨a, l, rfl⟩
      simp only [List.length_cons] at hlen
      simp only [buildURL, List.isEmpty_cons, Bool.false_eq_true, if_false,
        appendFilters, List.get?_cons_zero]
      norm_num
      rw [appendFilters_tail (v0 :: vrest) rest 1 _ (by omega)
        (by simp; omega)]
      simp only [List.drop_succ_cons, List.drop_zero, List.zip_cons_cons,
        specQueryString]
      congr 1
      simp [String.append_assoc]

lemma appendFilters_err (value : List String) :
    ∀ (s : List String) (n : Nat) (url : String), s ≠ [] →
      value.length < n + s.length →
      appendFilters value url n s = Except.error PyError.indexError := by
  intro s
  induction s with
  | nil => intro n url hne _; exact absurd rfl hne
  | cons k rest ih =>
      intro n url _ hlen
      simp only [List.length_cons] at hlen
      by_cases hlt : n < value.length
      · have hget : value.get? n = some (value.get ⟨n, hlt⟩) :=
          List.get?_eq_get hlt
        have hrest : rest ≠ [] := by
          intro h
          subst h
          simp at hlen
          omega
        simp only [appendFilters, hget]
        exact ih (n + 1) _ hrest (by omega)
      · have hget : value.get? n = none := by
          rw [List.get?_eq_none]
          omega
        simp only [appendFilters, hget]

lemma buildURL_err (category : String) (search value : List String)
    (h : value.length < search.length) :
    buildURL category search value = Except.error PyError.indexError := by
  cases search with
  | nil => simp at h
  | cons k rest =>
      simp only [buildURL, List.isEmpty_cons, Bool.false_eq_true, if_false]
      exact appendFilters_err value (k :: rest) 0 _ (by simp)
        (by simpa using h)

lemma countSep_append (a b : String) (c : Char) :
    countSep (a ++ b) c = countSep a c + countSep b c := by
  simp [countSep, String.data_append, List.count_append]

lemma countSep_of_clean_q {s : String} (h : cleanStr s) : countSep s '?' = 0 :=
  List.count_eq_zero.mpr h.1

lemma countSep_of_clean_amp {s : String} (h : cleanStr s) : countSep s '&' = 0 :=
  List.count_eq_zero.mpr h.2

lemma ampString_count_amp :
    ∀ l : List (String × String),
      (∀ kv ∈ l, cleanStr kv.1 ∧ cleanStr kv.2) →
      countSep (ampString l) '&' = l.length := by
  intro l
  induction l with
  | nil => intro _; rfl
  | cons kv rest ih =>
      intro h
      obtain ⟨k, v⟩ := kv
      obtain ⟨hk, hv⟩ := h (k, v) (List.mem_cons_self _ _)
      simp only [ampString, countSep_append, List.length_cons]
      rw [countSep_of_clean_amp hk, countSep_of_clean_amp hv,
        ih (fun kv hkv => h kv (List.mem_cons_of_mem _ hkv))]
      have h1 : countSep "&" '&' = 1 := by decide
      have h2 : countSep "=" '&' = 0 := by decide
      rw [h1, h2]
      omega

lemma ampString_count_q :
    ∀ l : List (String × String),
      (∀ kv ∈ l, cleanStr kv.1 ∧ cleanStr kv.2) →
      countSep (ampString l) '?' = 0 := by
  intro l
  induction l with
  | nil => intro _; rfl
  | cons kv rest ih =>
      intro h
      obtain ⟨k, v⟩ := kv
      obtain ⟨hk, hv⟩ := h (k, v) (List.mem_cons_self _ _)
      simp only [ampString, countSep_append]
      rw [countSep_of_clean_q hk, countSep_of_clean_q hv,
        ih (fun kv hkv => h kv (List.mem_cons_of_mem _ hkv))]
      have h1 : countSep "&" '?' = 0 := by decide
      have h2 : countSep "=" '?' = 0 := by decide
      rw [h1, h2]

lemma specQueryString_count_q (l : List (String × String))
    (h : ∀ kv ∈ l, cleanStr kv.1 ∧ cleanStr kv.2) :
    countSep (specQueryString l) '?' = if l.isEmpty then 0 else 1 := by
  cases l with
  | nil => rfl
  | cons kv rest =>
      obtain ⟨k, v⟩ := kv
      obtain ⟨hk, hv⟩ := h (k, v) (List.mem_cons_self _ _)
      simp only [specQueryString, countSep_append, List.isEmpty_cons,
        Bool.false_eq_true, if_false]
      rw [countSep_of_clean_q hk, countSep_of_clean_q hv,
        ampString_count_q rest (fun kv hkv => h kv (List.mem_cons_of_mem _ hkv))]
      have h1 : countSep "?" '?' = 1 := by decide
      have h2 : countSep "=" '?' = 0 := by decide
      rw [h1, h2]

lemma specQueryString_count_amp (l : List (String × String))
    (h : ∀ kv ∈ l, cleanStr kv.1 ∧ cleanStr kv.2) :
    countSep (specQueryString l) '&' = l.length - 1 := by
  cases l with
  | nil => rfl
  | cons kv rest =>
      obtain ⟨k, v⟩ := kv
      obtain ⟨hk, hv⟩ := h (k, v) (List.mem_cons_self _ _)
      simp only [specQueryString, countSep_append, List.length_cons]
      rw [countSep_of_clean_amp hk, countSep_of_clean_amp hv,
        ampString_count_amp rest (fun kv hkv => h kv (List.mem_cons_of_mem _ hkv))]
      have h1 : countSep "?" '&' = 0 := by decide
      have h2 : countSep "=" '&' = 0 := by decide
      rw [h1, h2]
      omega

lemma flattenFields_no_obj :
    ∀ (pre : String) (l : List (String × Json)),
      ∀ kv ∈ flattenFields pre l, kv.2.isObj = false := by
  intro pre l
  induction pre, l using flattenFields.induct with
  | case1 pre => simp [flattenFields]
  | case2 pre k inner rest ih1 ih2 =>
      intro kv hkv
      simp only [flattenFields, List.mem_append] at hkv
      rcases hkv with h | h
      · exact ih1 kv h
      · exact ih2 kv h
  | case3 pre k v rest hv ih =>
      intro kv hkv
      simp only [flattenFields, List.mem_cons] at hkv
      rcases hkv with h | h
      · subst h
        cases v with
        | obj fields => exact absurd rfl (hv fields)
        | str s => rfl
        | num n => rfl
        | bool b => rfl
        | null => rfl
        | arr elements => rfl
      · exact ih kv h

lemma mapM_rowOf_shape :
    ∀ (xs : List Json) (rows : Table), xs.mapM rowOf = some rows →
      ∀ r ∈ rows, ∃ fields, r = flattenFields "" fields := by
  intro xs
  induction xs with
  | nil =>
      intro rows h r hr
      simp only [List.mapM_nil, Option.pure_def, Option.some.injEq] at h
      subst h
      simp at hr
  | cons x xs ih =>
      intro rows h r hr
      rw [List.mapM_cons] at h
      cases hx : rowOf x with
      | none => rw [hx] at h; simp at h
      | some y =>
          cases hxs : xs.mapM rowOf with
          | none => rw [hx, hxs] at h; simp at h
          | some ys =>
              rw [hx, hxs] at h
              simp at h
              subst h
              rcases List.mem_cons.mp hr with hry | hry
              · subst hry
                cases x with
                | obj fields =>
                    exact ⟨fields, by simpa [rowOf] using hx.symm⟩
                | str s => simp [rowOf] at hx
                | num n => simp [rowOf] at hx
                | bool b => simp [rowOf] at hx
                | null => simp [rowOf] at hx
                | arr elements => simp [rowOf] at hx
              · exact ih ys hxs r hry

lemma jsonNormalize_shape (body : Json) (rows : Table)
    (h : jsonNormalize body = some rows) :
    ∀ r ∈ rows, ∃ fields, r = flattenFields "" fields := by
  cases body with
  | arr elements => exact mapM_rowOf_shape elements rows h
  | obj fields =>
      simp only [jsonNormalize, Option.some.injEq] at h
      subst h
      intro r hr
      simp only [List.mem_singleton] at hr
      exact ⟨fields, hr⟩
  | str s => simp [jsonNormalize] at h
  | num n => simp [jsonNormalize] at h
  | bool b => simp [jsonNormalize] at h
  | null => simp [jsonNormalize] at h

/-- C2, counterexample.  The claim asserts, for every category string,
exactly one `?` separator in the constructed URL; a category that
itself contains a `?` (here `a?b`) yields a URL with two `?` even
though the filter lists have equal length, so the separator-count part
of the claim fails without a separator-freeness assumption. -/
theorem c2_counterexample :
    buildURL "a?b" ["k"] ["v"] =
      Except.ok "https://api.collegefootballdata.com/a?b?k=v" ∧
    countSep "https://api.collegefootballdata.com/a?b?k=v" '?' = 2 ∧
    (["k"] : List String).length = (["v"] : List String).length := by
  refine ⟨rfl, by decide, rfl⟩

/-- C2, amended.  For every category string and equal-length filter
lists the constructed URL is exactly the API base, the category, and
the filters rendered in caller order — first as `?key=value`, the rest
as `&key=value` — and with empty filter lists it is the bare base plus
category with no query string; additionally, when the category, keys
and values are free of the separator characters, the URL has exactly
one `?` (none when the filter lists are empty) and `len(filters) - 1`
occurrences of `&`. -/
theorem c2_amended (category : String) (search value : List String)
    (hlen : search.length = value.length) :
    buildURL category search value =
      Except.ok (apiBase ++ category ++ specQueryString (search.zip value)) ∧
    (search = [] →
      buildURL category search value = Except.ok (apiBase ++ category)) ∧
    (cleanStr category → (∀ k ∈ search, cleanStr k) →
      (∀ v ∈ value, cleanStr v) →
      countSep (apiBase ++ category ++
          specQueryString (search.zip value)) '?' =
        (if search.isEmpty then 0 else 1) ∧
      countSep (apiBase ++ category ++
          specQueryString (search.zip value)) '&' =
        search.length - 1) := by
  refine ⟨buildURL_spec category search value (le_of_eq hlen), ?_, ?_⟩
  · intro h
    subst h
    simp [buildURL]
  · intro hcat hs hv
    have hclean : ∀ kv ∈ search.zip value, cleanStr kv.1 ∧ cleanStr kv.2 := by
      intro kv hkv
      obtain ⟨h1, h2⟩ := List.of_mem_zip hkv
      exact ⟨hs kv.1 h1, hv kv.2 h2⟩
    have hbase_q : countSep apiBase '?' = 0 := by decide
    have hbase_amp : countSep apiBase '&' = 0 := by decide
    have hziplen : (search.zip value).length = search.length := by
      rw [List.length_zip]; omega
    have hempty : (search.zip value).isEmpty = search.isEmpty := by
      cases search with
      | nil => simp
      | cons a l =>
          cases value with
          | nil => simp at hlen
          | cons b m => simp
    constructor
    · rw [countSep_append, countSep_append, hbase_q,
        countSep_of_clean_q hcat, specQueryString_count_q _ hclean, hempty]
      simp
    · rw [countSep_append, countSep_append, hbase_amp,
        countSep_of_clean_amp hcat, specQueryString_count_amp _ hclean,
        hziplen]
      omega

/-- C2, witness for the amended theorem at the specification's own
example (category `games` with filters year=2022 and team=Alabama),
with the separator-count part's cleanliness hypotheses discharged
concretely. -/
theorem c2_amended_witness :
    buildURL "games" ["year", "team"] ["2022", "Alabama"] =
      Except.ok (apiBase ++ "games" ++
        specQueryString (["year", "team"].zip ["2022", "Alabama"])) ∧
    countSep (apiBase ++ "games" ++
        specQueryString (["year", "team"].zip ["2022", "Alabama"])) '?' =
      (if (["year", "team"] : List String).isEmpty then 0 else 1) ∧
    countSep (apiBase ++ "games" ++
        specQueryString (["year", "team"].zip ["2022", "Alabama"])) '&' =
      (["year", "team"] : List String).length - 1 :=
  ⟨(c2_amended "games" ["year", "team"] ["2022", "Alabama"] rfl).1,
   ((c2_amended "games" ["year", "team"] ["2022", "Alabama"] rfl).2.2
     (by decide) (by decide) (by decide)).1,
   ((c2_amended "games" ["year", "team"] ["2022", "Alabama"] rfl).2.2
     (by decide) (by decide) (by decide)).2⟩

/-- C3, counterexample.  The claim requires a ValidationError before
any network call whenever the filter lists have different lengths; with
Search empty and Value of length one (lengths 0 and 1) the source
skips the filter loop entirely, performs the HTTP request and finishes
with 'Success' — no error of any kind is raised. -/
theorem c3_counterexample :
    (([] : List String).length ≠ (["2022"] : List String).length) ∧
    (pull_and_dump_data ⟨"teams", [], ["2022"], none, none, "out"⟩
        ⟨⟨200, Json.arr []⟩, ⟨"w", "d", "s"⟩, none, false, false⟩).2.2 =
      Except.ok (PyResult.str "Success") ∧
    Event.httpGet (apiBase ++ "teams") ∈
      (pull_and_dump_data ⟨"teams", [], ["2022"], none, none, "out"⟩
        ⟨⟨200, Json.arr []⟩, ⟨"w", "d", "s"⟩, none, false, false⟩).1 := by
  refine ⟨by decide, rfl, by decide⟩

/-- C3, amended.  No length validation exists: when the value list is
at least as long as the key list the URL is built and the request
proceeds (extra values are silently ignored), and only when the value
list is strictly shorter does an IndexError abort `pull_and_dump_data`
before anything is printed or requested (empty trace). -/
theorem c3_amended (category : String) (search value : List String) :
    (search.length ≤ value.length →
      ∃ u, buildURL category search value = Except.ok u) ∧
    (value.length < search.length →
      buildURL category search value = Except.error PyError.indexError) ∧
    (∀ (w : World) (exp : Option Bool) (tbl : Option String) (file : String),
      value.length < search.length →
      (pull_and_dump_data ⟨category, search, value, exp, tbl, file⟩ w).1 = [] ∧
      (pull_and_dump_data ⟨category, search, value, exp, tbl, file⟩ w).2.2 =
        Except.error (PipeError.py PyError.indexError)) := by
  refine ⟨?_, ?_, ?_⟩
  · intro h
    exact ⟨_, buildURL_spec category search value h⟩
  · intro h
    exact buildURL_err category search value h
  · intro w exp tbl file h
    have hb := buildURL_err category search value h
    constructor
    · simp only [pull_and_dump_data, hb]
    · simp only [pull_and_dump_data, hb]

/-- C3, witness for the amended theorem: keys `a, b` against the single
value `1` hit the IndexError branch. -/
theorem c3_amended_witness :
    buildURL "teams" ["a", "b"] ["1"] = Except.error PyError.indexError :=
  (c3_amended "teams" ["a", "b"] ["1"]).2.1 (by decide)

/-- C4, confirmed.  Any response with a status other than 200 makes
`pull_data_from_api` raise the exception carrying that status code, and
no table — partial or otherwise — is ever returned alongside it. -/
theorem c4_fetch_error (resp : Response) (h : resp.status_code ≠ 200) :
    pull_data_from_api resp =
      Except.error (ApiError.requestFailed resp.status_code) ∧
    ∀ t : Table, pull_data_from_api resp ≠ Except.ok t := by
  constructor
  · simp [pull_data_from_api, h]
  · intro t hc
    rw [pull_data_from_api, if_neg h] at hc
    exact Except.noConfusion hc

/-- C4, witness at a concrete 404 response. -/
theorem c4_fetch_error_witness :
    pull_data_from_api ⟨404, Json.arr []⟩ =
      Except.error (ApiError.requestFailed 404) ∧
    ∀ t : Table, pull_data_from_api ⟨404, Json.arr []⟩ ≠ Except.ok t :=
  c4_fetch_error ⟨404, Json.arr []⟩ (by decide)

/-- C5, confirmed.  On a 200 response whose body normalizes to `rows`,
the returned table is exactly `rows` with every column name mapped
through `toUpper` and every cell value untouched (uppercasing is the
sole transformation), and the normalization has already flattened all
nested objects away (no cell of any row is itself an object; nested
keys were joined with dots by `flattenFields`). -/
theorem c5_normalize (resp : Response) (rows : Table)
    (h200 : resp.status_code = 200)
    (hn : jsonNormalize resp.body = some rows) :
    pull_data_from_api resp =
      Except.ok (rows.map (fun r => r.map (fun kv => (kv.1.toUpper, kv.2)))) ∧
    ∀ r ∈ rows, ∀ kv ∈ r, kv.2.isObj = false := by
  constructor
  · simp [pull_data_from_api, h200, hn, upperRow]
  · intro r hr kv hkv
    obtain ⟨fields, rfl⟩ := jsonNormalize_shape resp.body rows hn r hr
    exact flattenFields_no_obj "" fields kv hkv

lemma pull_and_dump_trace (arg : DictArg) (w : World) (url : String)
    (hu : buildURL arg.Category arg.Search arg.Value = Except.ok url) :
    ∃ rest, (pull_and_dump_data arg w).1 =
      Event.printUrl url :: Event.httpGet url :: rest := by
  simp only [pull_and_dump_data, hu]
  cases pull_data_from_api w.resp with
  | error e => exact ⟨[], rfl⟩
  | ok df =>
      dsimp only
      by_cases hexp : truthyOptBool arg.Export = true
      · rw [if_pos hexp]
        by_cases hok : (dump_to_snowflake w.snow df
            (arg.Table.getD "default_table_name") w.existing w.ctxFails
            w.writeRaises).2.2 = true
        · rw [if_pos hok]; exact ⟨_, rfl⟩
        · rw [if_neg hok]; exact ⟨_, rfl⟩
      · rw [if_neg hexp]; exact ⟨_, rfl⟩

lemma pull_and_dump_result (arg : DictArg) (w : World) (r : PyResult)
    (h : (pull_and_dump_data arg w).2.2 = Except.ok r) :
    (truthyOptBool arg.Export = true → r = PyResult.bool true) ∧
    (truthyOptBool arg.Export = false → r = PyResult.str "Success") := by
  simp only [pull_and_dump_data] at h
  cases hb : buildURL arg.Category arg.Search arg.Value <;> rw [hb] at h
  case error => simp at h
  case ok url =>
    cases hf : pull_data_from_api w.resp <;> rw [hf] at h
    case error => simp at h
    case ok df =>
      cases hexp : truthyOptBool arg.Export <;> simp [hexp] at h
      · exact ⟨fun hc => by simp at hc, fun _ => h.symm⟩
      · by_cases hok : (dump_to_snowflake w.snow df
            (arg.Table.getD "default_table_name") w.existing w.ctxFails
            w.writeRaises).2.2 = true
        · rw [if_pos hok] at h
          simp at h
          exact ⟨fun _ => h.symm, fun hc => by simp at hc⟩
        · rw [if_neg hok] at h
          simp at h

lemma main_trace (arg : CliArgs) (w : World) (url : String)
    (hu : buildURL arg.Category
      (if truthyOptList arg.Search then arg.Search.getD [] else [])
      (arg.Value.getD []) = Except.ok url) :
    ∃ rest, (main arg w).1 =
      Event.printUrl url :: Event.httpGet url :: rest := by
  simp only [main, hu]
  cases pull_data_from_api w.resp with
  | error e => exact ⟨[], rfl⟩
  | ok df =>
      dsimp only
      by_cases hexp : truthyOptStr arg.Export = true
      · rw [if_pos hexp]
        cases arg.Table with
        | none => exact ⟨_, rfl⟩
        | some t =>
            cases write_pandas_model w.existing df true w.writeRaises with
            | error e => exact ⟨_, rfl⟩
            | ok p => exact ⟨_, rfl⟩
      · rw [if_neg hexp]; exact ⟨_, rfl⟩

lemma main_result (arg : CliArgs) (w : World) (r : PyResult)
    (h : (main arg w).2.2 = Except.ok r) :
    (truthyOptStr arg.Export = true → ∃ b, r = PyResult.bool b) ∧
    (truthyOptStr arg.Export = false → r = PyResult.str "Success") := by
  simp only [main] at h
  cases hb : buildURL arg.Category
      (if truthyOptList arg.Search then arg.Search.getD [] else [])
      (arg.Value.getD []) <;> rw [hb] at h
  case error => simp at h
  case ok url =>
    cases hf : pull_data_from_api w.resp <;> rw [hf] at h
    case error => simp at h
    case ok df =>
      cases hexp : truthyOptStr arg.Export <;> simp [hexp] at h
      · exact ⟨fun hc => by simp at hc, fun _ => h.symm⟩
      · cases ht : arg.Table <;> rw [ht] at h
        case none => simp at h
        case some t =>
          cases hw : write_pandas_model w.existing df true w.writeRaises <;>
            rw [hw] at h
          case error => simp at h
          case ok p =>
            simp at h
            exact ⟨fun _ => ⟨p.2, h.symm⟩, fun hc => by simp at hc⟩

lemma pull_and_dump_csv (arg : DictArg) (w : World) (url : String)
    (df : Table)
    (hu : buildURL arg.Category arg.Search arg.Value = Except.ok url)
    (hf : pull_data_from_api w.resp = Except.ok df)
    (hexp : truthyOptBool arg.Export = false) :
    pull_and_dump_data arg w =
      ([Event.printUrl url, Event.httpGet url,
        Event.writeCsv (arg.File ++ ".csv") true], w.existing,
       Except.ok (PyResult.str "Success")) := by
  simp [pull_and_dump_data, hu, hf, hexp]

lemma pull_and_dump_export_trace (arg : DictArg) (w : World) (url : String)
    (df : Table)
    (hu : buildURL arg.Category arg.Search arg.Value = Except.ok url)
    (hf : pull_data_from_api w.resp = Except.ok df)
    (hexp : truthyOptBool arg.Export = true) :
    (pull_and_dump_data arg w).1 =
      [Event.printUrl url, Event.httpGet url,
       Event.printMsg "Dumping to Snowflake..."] ++
      (dump_to_snowflake w.snow df (arg.Table.getD "default_table_name")
        w.existing w.ctxFails w.writeRaises).1 := by
  simp only [pull_and_dump_data, hu, hf, hexp, if_true]
  by_cases hok : (dump_to_snowflake w.snow df
      (arg.Table.getD "default_table_name") w.existing w.ctxFails
      w.writeRaises).2.2 = true
  · rw [if_pos hok]
    rfl
  · rw [if_neg hok]
    rfl

lemma dump_writeAttempt_mem (conn : SnowConn) (df : Table) (name : String)
    (existing : Option Table) (wr : Bool) :
    Event.writeAttempt name ∈
      (dump_to_snowflake conn df name existing false wr).1 := by
  simp only [dump_to_snowflake, Bool.false_eq_true, if_false]
  cases write_pandas_model existing df false wr with
  | error e => simp
  | ok p => simp

lemma main_csv (arg : CliArgs) (w : World) (url : String) (df : Table)
    (hu : buildURL arg.Category
      (if truthyOptList arg.Search then arg.Search.getD [] else [])
      (arg.Value.getD []) = Except.ok url)
    (hf : pull_data_from_api w.resp = Except.ok df)
    (hexp : truthyOptStr arg.Export = false) :
    main arg w =
      ([Event.printUrl url, Event.httpGet url,
        Event.writeCsv ((arg.File.getD "None") ++ ".csv") true], w.existing,
       Except.ok (PyResult.str "Success")) := by
  simp [main, hu, hf, hexp]

lemma main_export_msg (arg : CliArgs) (w : World) (url : String) (df : Table)
    (hu : buildURL arg.Category
      (if truthyOptList arg.Search then arg.Search.getD [] else [])
      (arg.Value.getD []) = Except.ok url)
    (hf : pull_data_from_api w.resp = Except.ok df)
    (hexp : truthyOptStr arg.Export = true) :
    Event.printMsg "To Snowflake..." ∈ (main arg w).1 := by
  simp only [main, hu, hf, hexp, if_true]
  cases arg.Table with
  | none => simp
  | some t =>
      cases write_pandas_model w.existing df true w.writeRaises with
      | error e => simp
      | ok p => simp

lemma main_no_close_of_raise (arg : CliArgs) (w : World)
    (hw : w.writeRaises = true) :
    Event.closeConn ∉ (main arg w).1 := by
  simp only [main]
  cases buildURL arg.Category
      (if truthyOptList arg.Search then arg.Search.getD [] else [])
      (arg.Value.getD []) with
  | error e => simp
  | ok url =>
      cases pull_data_from_api w.resp with
      | error e => simp
      | ok df =>
          dsimp only
          by_cases hexp : truthyOptStr arg.Export = true
          · rw [if_pos hexp]
            cases arg.Table with
            | none => simp
            | some t => simp [write_pandas_model, hw]
          · rw [if_neg hexp]
            simp

/-- C1, confirmed.  In both pipeline variants, once the URL is
constructed it is printed and only then is the HTTP request issued
(the trace begins with the print event followed by the request event),
and a successful invocation returns the string 'Success' on the CSV
path and a boolean export-success flag (always `True` in
`pull_and_dump_data`, the `write_pandas` flag in `main`) on the export
path. -/
theorem c1_pipeline :
    (∀ (arg : DictArg) (w : World) (url : String),
      buildURL arg.Category arg.Search arg.Value = Except.ok url →
      (∃ rest, (pull_and_dump_data arg w).1 =
        Event.printUrl url :: Event.httpGet url :: rest) ∧
      (∀ r, (pull_and_dump_data arg w).2.2 = Except.ok r →
        (truthyOptBool arg.Export = true → r = PyResult.bool true) ∧
        (truthyOptBool arg.Export = false → r = PyResult.str "Success"))) ∧
    (∀ (arg : CliArgs) (w : World) (url : String),
      buildURL arg.Category
        (if truthyOptList arg.Search then arg.Search.getD [] else [])
        (arg.Value.getD []) = Except.ok url →
      (∃ rest, (main arg w).1 =
        Event.printUrl url :: Event.httpGet url :: rest) ∧
      (∀ r, (main arg w).2.2 = Except.ok r →
        (truthyOptStr arg.Export = true → ∃ b, r = PyResult.bool b) ∧
        (truthyOptStr arg.Export = false → r = PyResult.str "Success"))) := by
  constructor
  · intro arg w url hu
    exact ⟨pull_and_dump_trace arg w url hu,
      fun r hr => pull_and_dump_result arg w r hr⟩
  · intro arg w url hu
    exact ⟨main_trace arg w url hu, fun r hr => main_result arg w r hr⟩

/-- C1, witness: a CSV-path invocation of each variant at a concrete
argument set and a concrete 200 response. -/
theorem c1_pipeline_witness :
    ((∃ rest, (pull_and_dump_data ⟨"teams", [], [], none, none, "out"⟩
        ⟨⟨200, Json.arr []⟩, ⟨"w", "d", "s"⟩, none, false, false⟩).1 =
      Event.printUrl (apiBase ++ "teams") ::
        Event.httpGet (apiBase ++ "teams") :: rest) ∧
      (∀ r, (pull_and_dump_data ⟨"teams", [], [], none, none, "out"⟩
          ⟨⟨200, Json.arr []⟩, ⟨"w", "d", "s"⟩, none, false, false⟩).2.2 =
        Except.ok r →
        (truthyOptBool (none : Option Bool) = true → r = PyResult.bool true) ∧
        (truthyOptBool (none : Option Bool) = false →
          r = PyResult.str "Success"))) ∧
    ((∃ rest, (main ⟨"teams", none, none, some "out", none, none⟩
        ⟨⟨200, Json.arr []⟩, ⟨"w", "d", "s"⟩, none, false, false⟩).1 =
      Event.printUrl (apiBase ++ "teams") ::
        Event.httpGet (apiBase ++ "teams") :: rest) ∧
      (∀ r, (main ⟨"teams", none, none, some "out", none, none⟩
          ⟨⟨200, Json.arr []⟩, ⟨"w", "d", "s"⟩, none, false, false⟩).2.2 =
        Except.ok r →
        (truthyOptStr (none : Option String) = true →
          ∃ b, r = PyResult.bool b) ∧
        (truthyOptStr (none : Option String) = false →
          r = PyResult.str "Success"))) :=
  ⟨c1_pipeline.1 ⟨"teams", [], [], none, none, "out"⟩
    ⟨⟨200, Json.arr []⟩, ⟨"w", "d", "s"⟩, none, false, false⟩
    (apiBase ++ "teams") rfl,
   c1_pipeline.2 ⟨"teams", none, none, some "out", none, none⟩
    ⟨⟨200, Json.arr []⟩, ⟨"w", "d", "s"⟩, none, false, false⟩
    (apiBase ++ "teams") rfl⟩

/-- C5, witness: a 200 response holding one record with a scalar field
and a nested object field; the nested key comes out dotted and
uppercased, the values unchanged. -/
theorem c5_normalize_witness :
    pull_data_from_api
      ⟨200, Json.arr [Json.obj
        [("a", Json.num 1), ("b", Json.obj [("c", Json.str "x")])]]⟩ =
      Except.ok (([[("a", Json.num 1), ("b.c", Json.str "x")]] : Table).map
        (fun r => r.map (fun kv => (kv.1.toUpper, kv.2)))) ∧
    ∀ r ∈ ([[("a", Json.num 1), ("b.c", Json.str "x")]] : Table),
      ∀ kv ∈ r, kv.2.isObj = false :=
  c5_normalize
    ⟨200, Json.arr [Json.obj
      [("a", Json.num 1), ("b", Json.obj [("c", Json.str "x")])]]⟩
    [[("a", Json.num 1), ("b.c", Json.str "x")]] rfl
    (by simp [jsonNormalize, rowOf, flattenFields, dotKey, List.mapM,
      List.mapM.loop])

/-- C6, counterexample.  The claim asserts replace semantics for all
adapters including the Snowflake bulk write, but `write_pandas` is
invoked with `overwrite` left at its default `False` and therefore
appends: writing a one-row table into a destination that already holds
one row leaves two rows, not the fetched table's one. -/
theorem c6_counterexample :
    (dump_to_snowflake ⟨"w", "d", "s"⟩ [[("A", Json.num 2)]] "T"
        (some [[("A", Json.num 1)]]) false false).2.1 =
      some [[("A", Json.num 1)], [("A", Json.num 2)]] ∧
    ([[("A", Json.num 1)], [("A", Json.num 2)]] : Table).length ≠
      ([[("A", Json.num 2)]] : Table).length :=
  ⟨rfl, by decide⟩

/-- C6, amended.  The Postgres adapter is replace-semantics
(`if_exists='replace'`): the destination afterwards holds exactly the
fetched table, so its row count equals the fetched row count.  The
Snowflake adapters call `write_pandas` without `overwrite`, which
appends to a pre-existing table: the destination afterwards holds the
old rows followed by the fetched rows, and its row count is the sum of
the two. -/
theorem c6_amended :
    (∀ (p : PostgresParams) (existing : Option Table) (df : Table)
        (name : String),
      dump_to_postgres p existing df name = some df ∧
      (dump_to_postgres p existing df name).map List.length =
        some df.length) ∧
    (∀ (conn : SnowConn) (t df : Table) (name : String),
      (dump_to_snowflake conn df name (some t) false false).2.1 =
        some (t ++ df) ∧
      (t ++ df).length = t.length + df.length) ∧
    (∀ (t df : Table) (ac : Bool),
      write_pandas_model (some t) df ac false =
        Except.ok (some (t ++ df), true)) := by
  refine ⟨fun p existing df name => ⟨rfl, rfl⟩, fun conn t df name => ?_,
    fun t df ac => rfl⟩
  exact ⟨by simp [dump_to_snowflake, write_pandas_model],
    List.length_append t df⟩

/-- C7, counterexample.  The claim covers every Snowflake export, but
the CLI variant `main` sets context only through connection parameters
(no USE statements), never commits, and closes the connection only
after a successful write: with a write that raises, the trace ends at
the write attempt and contains no close (and no USE statement). -/
theorem c7_counterexample :
    (main ⟨"teams", none, none, none, some "Y", some "T"⟩
        ⟨⟨200, Json.arr []⟩, ⟨"w", "d", "s"⟩, some [], false, true⟩).1 =
      [Event.printUrl (apiBase ++ "teams"),
       Event.httpGet (apiBase ++ "teams"),
       Event.printMsg "To Snowflake...", Event.snowflakeConnect,
       Event.writeAttempt "T"] ∧
    Event.closeConn ∉
      (main ⟨"teams", none, none, none, some "Y", some "T"⟩
        ⟨⟨200, Json.arr []⟩, ⟨"w", "d", "s"⟩, some [], false, true⟩).1 ∧
    ∀ s, Event.useWarehouse s ∉
      (main ⟨"teams", none, none, none, some "Y", some "T"⟩
        ⟨⟨200, Json.arr []⟩, ⟨"w", "d", "s"⟩, some [], false, true⟩).1 := by
  refine ⟨rfl, by decide, ?_⟩
  intro s
  rw [show (main ⟨"teams", none, none, none, some "Y", some "T"⟩
        ⟨⟨200, Json.arr []⟩, ⟨"w", "d", "s"⟩, some [], false, true⟩).1 =
      [Event.printUrl (apiBase ++ "teams"),
       Event.httpGet (apiBase ++ "teams"),
       Event.printMsg "To Snowflake...", Event.snowflakeConnect,
       Event.writeAttempt "T"] from rfl]
  simp

/-- C7, amended.  In `dump_to_snowflake` the guarantee holds: the
connection close is the last event on every exit path (context failure,
write failure, success), and on the success path the three USE
statements all precede the bulk write, which is followed by the
commit and then the close.  In the CLI variant `main`, however, the
export path issues no USE statements and closes the connection only
when the bulk write does not raise: if the write raises, no close
event occurs. -/
theorem c7_amended (conn : SnowConn) (df : Table) (name : String)
    (existing : Option Table) (cf wr : Bool) :
    (dump_to_snowflake conn df name existing cf wr).1.getLast? =
      some Event.closeConn ∧
    (∀ t : Table, cf = false → wr = false → existing = some t →
      (dump_to_snowflake conn df name existing cf wr).1 =
        [Event.snowflakeConnect, Event.useWarehouse conn.warehouse,
         Event.useDatabase conn.database, Event.useSchema conn.schema,
         Event.writeAttempt name, Event.commit, Event.closeConn]) ∧
    (∀ (arg : CliArgs) (w : World), w.writeRaises = true →
      Event.closeConn ∉ (main arg w).1) := by
  refine ⟨?_, ?_, fun arg w hw => main_no_close_of_raise arg w hw⟩
  · cases cf with
    | true => rfl
    | false =>
        simp only [dump_to_snowflake, Bool.false_eq_true, if_false]
        cases write_pandas_model existing df false wr with
        | error e => rfl
        | ok p => rfl
  · intro t hcf hwr hex
    subst hcf
    subst hwr
    subst hex
    simp [dump_to_snowflake, write_pandas_model]

/-- C7, witness for the amended theorem: the success path of
`dump_to_snowflake` on a concrete table, and the raising write in
`main` leaving the connection open. -/
theorem c7_amended_witness :
    (dump_to_snowflake ⟨"wh", "db", "sc"⟩ [] "T" (some []) false
        false).1.getLast? = some Event.closeConn ∧
    (dump_to_snowflake ⟨"wh", "db", "sc"⟩ [] "T" (some []) false false).1 =
      [Event.snowflakeConnect, Event.useWarehouse "wh",
       Event.useDatabase "db", Event.useSchema "sc",
       Event.writeAttempt "T", Event.commit, Event.closeConn] ∧
    Event.closeConn ∉
      (main ⟨"games", none, none, none, some "y", some "G"⟩
        ⟨⟨200, Json.arr []⟩, ⟨"wh", "db", "sc"⟩, some [], false, true⟩).1 :=
  ⟨(c7_amended ⟨"wh", "db", "sc"⟩ [] "T" (some []) false false).1,
   (c7_amended ⟨"wh", "db", "sc"⟩ [] "T" (some []) false false).2.1 []
     rfl rfl rfl,
   (c7_amended ⟨"wh", "db", "sc"⟩ [] "T" (some []) false false).2.2
     ⟨"games", none, none, none, some "y", some "G"⟩
     ⟨⟨200, Json.arr []⟩, ⟨"wh", "db", "sc"⟩, some [], false, true⟩ rfl⟩

/-- C8, counterexample.  The claim says no index column in every code
path that writes CSV, but the pipeline writes
(`df.to_csv(f'...csv')` in both variants) use the pandas default
`index=True`: the trace records the write with the index flag set, and
with the index a one-column one-row frame serializes with header
`,A` — a leading index cell — instead of the bare column names. -/
theorem c8_counterexample :
    (pull_and_dump_data ⟨"teams", [], [], none, none, "out"⟩
        ⟨⟨200, Json.arr []⟩, ⟨"w", "d", "s"⟩, none, false, false⟩).1 =
      [Event.printUrl (apiBase ++ "teams"),
       Event.httpGet (apiBase ++ "teams"),
       Event.writeCsv "out.csv" true] ∧
    csvLines ⟨["A"], [["1"]]⟩ true = [",A", "0,1"] ∧
    joinComma ("" :: ["A"]) ≠ joinComma ["A"] :=
  ⟨rfl, rfl, by decide⟩

/-- C8, amended.  `dump_to_csv` writes index-free CSV to exactly the
path it is given: header line of the column names, then one
comma-separated line per row.  The pipeline CSV writes in
`pull_and_dump_data` and `main` do name the file `<basename>.csv` but
call `to_csv` with the pandas default `index=True`, so their output
carries a leading index column. -/
theorem c8_amended (df : Frame) (path : String) :
    dump_to_csv df path = (path, to_csv df false) ∧
    csvLines df false = joinComma df.columns :: df.rows.map joinComma ∧
    (∀ (arg : DictArg) (w : World) (url : String) (tbl : Table),
      buildURL arg.Category arg.Search arg.Value = Except.ok url →
      pull_data_from_api w.resp = Except.ok tbl →
      truthyOptBool arg.Export = false →
      (pull_and_dump_data arg w).1 =
        [Event.printUrl url, Event.httpGet url,
         Event.writeCsv (arg.File ++ ".csv") true]) ∧
    (∀ (arg : CliArgs) (w : World) (url : String) (tbl : Table),
      buildURL arg.Category
        (if truthyOptList arg.Search then arg.Search.getD [] else [])
        (arg.Value.getD []) = Except.ok url →
      pull_data_from_api w.resp = Except.ok tbl →
      truthyOptStr arg.Export = false →
      (main arg w).1 =
        [Event.printUrl url, Event.httpGet url,
         Event.writeCsv ((arg.File.getD "None") ++ ".csv") true]) := by
  refine ⟨rfl, ?_, ?_, ?_⟩
  · simp only [csvLines, Bool.false_eq_true, if_false, List.map_cons]
    congr 1
    rw [show (fun ir : Nat × List String => ir.2) =
      (Prod.snd : Nat × List String → List String) from rfl]
    rw [List.enum_map_snd]
  · intro arg w url tbl hu hf hexp
    rw [pull_and_dump_csv arg w url tbl hu hf hexp]
  · intro arg w url tbl hu hf hexp
    rw [main_csv arg w url tbl hu hf hexp]

/-- C8, witness for the amended theorem on a concrete frame and a
concrete CSV-path pipeline run. -/
theorem c8_amended_witness :
    dump_to_csv ⟨["A"], [["1"]]⟩ "f.csv" =
      ("f.csv", to_csv ⟨["A"], [["1"]]⟩ false) ∧
    csvLines ⟨["A"], [["1"]]⟩ false =
      joinComma ["A"] :: [["1"]].map joinComma ∧
    (pull_and_dump_data ⟨"teams", [], [], none, none, "base"⟩
        ⟨⟨200, Json.arr []⟩, ⟨"w", "d", "s"⟩, none, false, false⟩).1 =
      [Event.printUrl (apiBase ++ "teams"),
       Event.httpGet (apiBase ++ "teams"),
       Event.writeCsv ("base" ++ ".csv") true] :=
  ⟨(c8_amended ⟨["A"], [["1"]]⟩ "f.csv").1,
   (c8_amended ⟨["A"], [["1"]]⟩ "f.csv").2.1,
   (c8_amended ⟨["A"], [["1"]]⟩ "f.csv").2.2.1
     ⟨"teams", [], [], none, none, "base"⟩
     ⟨⟨200, Json.arr []⟩, ⟨"w", "d", "s"⟩, none, false, false⟩
     (apiBase ++ "teams") [] rfl rfl rfl⟩

/-- C9, counterexample.  The claim says the CLI variant treats the
table argument as required; in fact `--Table` is declared without
`required=True`, a command line omitting it parses successfully with
`Table = None`, and the export then proceeds past the network call
before failing inside the write with a TypeError. -/
theorem c9_counterexample :
    parse_args ⟨some "teams", none, none, none, some "Y", none⟩ =
      Except.ok ⟨"teams", none, none, none, some "Y", none⟩ ∧
    (∀ spec ∈ argumentSpecs, spec.name = "Table" →
      spec.required = false) ∧
    (main ⟨"teams", none, none, none, some "Y", none⟩
        ⟨⟨200, Json.arr []⟩, ⟨"w", "d", "s"⟩, some [], false, false⟩).2.2 =
      Except.error PipeError.typeError ∧
    Event.httpGet (apiBase ++ "teams") ∈
      (main ⟨"teams", none, none, none, some "Y", none⟩
        ⟨⟨200, Json.arr []⟩, ⟨"w", "d", "s"⟩, some [], false, false⟩).1 :=
  ⟨rfl, by decide, rfl, by decide⟩

/-- C9, amended.  The dictionary-driven variant silently defaults the
export table name to `default_table_name` when no Table entry is
supplied; the CLI-driven variant declares `--Table` as an optional
flag with argparse default `None` and applies no fallback name, so a
missing table argument is accepted at parse time and passed through
unchanged. -/
theorem c9_amended :
    (∀ (arg : DictArg) (w : World) (url : String) (df : Table),
      arg.Export = some true → arg.Table = none →
      buildURL arg.Category arg.Search arg.Value = Except.ok url →
      pull_data_from_api w.resp = Except.ok df →
      w.ctxFails = false →
      Event.writeAttempt "default_table_name" ∈
        (pull_and_dump_data arg w).1) ∧
    (∀ (inp : CliInput) (c : String), inp.Category = some c →
      parse_args inp = Except.ok
        ⟨c, inp.Search, inp.Value, inp.File, inp.Export, inp.Table⟩) ∧
    (∀ (inp : CliInput) (args : CliArgs),
      parse_args inp = Except.ok args → args.Table = inp.Table) ∧
    (∀ spec ∈ argumentSpecs, spec.name = "Table" →
      spec.required = false) := by
  refine ⟨?_, ?_, ?_, by decide⟩
  · intro arg w url df hE hT hu hf hcf
    have hexp : truthyOptBool arg.Export = true := by
      rw [hE]; rfl
    rw [pull_and_dump_export_trace arg w url df hu hf hexp]
    rw [List.mem_append]
    right
    rw [hT]
    have := dump_writeAttempt_mem w.snow df "default_table_name"
      w.existing w.writeRaises
    simpa [hcf] using this
  · intro inp c h
    simp [parse_args, h]
  · intro inp args h
    cases hc : inp.Category with
    | none => rw [parse_args, hc] at h; exact Except.noConfusion h
    | some c =>
        rw [parse_args, hc] at h
        cases h
        rfl

/-- C9, witness for the amended theorem: a concrete export run with no
Table entry writes to `default_table_name`, and a concrete command
line without `--Table` parses with `Table = None`. -/
theorem c9_amended_witness :
    Event.writeAttempt "default_table_name" ∈
      (pull_and_dump_data ⟨"teams", [], [], some true, none, "out"⟩
        ⟨⟨200, Json.arr []⟩, ⟨"w", "d", "s"⟩, some [], false, false⟩).1 ∧
    parse_args ⟨some "x", none, none, none, none, none⟩ =
      Except.ok ⟨"x", none, none, none, none, none⟩ :=
  ⟨c9_amended.1 ⟨"teams", [], [], some true, none, "out"⟩
      ⟨⟨200, Json.arr []⟩, ⟨"w", "d", "s"⟩, some [], false, false⟩
      (apiBase ++ "teams") [] rfl rfl rfl rfl rfl,
   c9_amended.2.1 ⟨some "x", none, none, none, none, none⟩ "x" rfl⟩

/-- C10, counterexample.  The claim says the CSV path is taken only
when `--Export` is omitted entirely; supplying the flag with the empty
string also takes the CSV path (Python falsiness of the empty string),
so 'only when omitted' fails. -/
theorem c10_counterexample :
    ((⟨"teams", none, none, some "out", some "", some "T"⟩ : CliArgs).Export ≠
      none) ∧
    (main ⟨"teams", none, none, some "out", some "", some "T"⟩
        ⟨⟨200, Json.arr []⟩, ⟨"w", "d", "s"⟩, some [], false, false⟩).2.2 =
      Except.ok (PyResult.str "Success") ∧
    Event.writeCsv ("out" ++ ".csv") true ∈
      (main ⟨"teams", none, none, some "out", some "", some "T"⟩
        ⟨⟨200, Json.arr []⟩, ⟨"w", "d", "s"⟩, some [], false, false⟩).1 ∧
    Event.printMsg "To Snowflake..." ∉
      (main ⟨"teams", none, none, some "out", some "", some "T"⟩
        ⟨⟨200, Json.arr []⟩, ⟨"w", "d", "s"⟩, some [], false, false⟩).1 :=
  ⟨by decide, rfl, by decide, by decide⟩

/-- C10, amended.  Argparse passes `--Export` through as an arbitrary
string with no boolean conversion, every invocation supplying a
non-empty string for it (including the string 'False') takes the
Snowflake export path, and the CSV path is taken exactly when the flag
is omitted (`None`) or supplied as the empty string — both falsy in
Python. -/
theorem c10_amended :
    (∀ (inp : CliInput) (args : CliArgs),
      parse_args inp = Except.ok args → args.Export = inp.Export) ∧
    (∀ (arg : CliArgs) (w : World) (url : String) (df : Table)
        (s : String),
      buildURL arg.Category
        (if truthyOptList arg.Search then arg.Search.getD [] else [])
        (arg.Value.getD []) = Except.ok url →
      pull_data_from_api w.resp = Except.ok df →
      arg.Export = some s → s ≠ "" →
      Event.printMsg "To Snowflake..." ∈ (main arg w).1) ∧
    (∀ (arg : CliArgs) (w : World) (url : String) (df : Table),
      buildURL arg.Category
        (if truthyOptList arg.Search then arg.Search.getD [] else [])
        (arg.Value.getD []) = Except.ok url →
      pull_data_from_api w.resp = Except.ok df →
      (arg.Export = none ∨ arg.Export = some "") →
      (main arg w).2.2 = Except.ok (PyResult.str "Success") ∧
      Event.writeCsv ((arg.File.getD "None") ++ ".csv") true ∈
        (main arg w).1) := by
  refine ⟨?_, ?_, ?_⟩
  · intro inp args h
    cases hc : inp.Category with
    | none => rw [parse_args, hc] at h; exact Except.noConfusion h
    | some c =>
        rw [parse_args, hc] at h
        cases h
        rfl
  · intro arg w url df s hu hf hE hs
    have hexp : truthyOptStr arg.Export = true := by
      rw [hE]
      simpa [truthyOptStr] using hs
    exact main_export_msg arg w url df hu hf hexp
  · intro arg w url df hu hf hE
    have hexp : truthyOptStr arg.Export = false := by
      rcases hE with h | h <;> rw [h] <;> rfl
    rw [main_csv arg w url df hu hf hexp]
    exact ⟨rfl, by simp⟩

/-- C10, witness for the amended theorem: `--Export False` takes the
export path, while omitting the flag takes the CSV path. -/
theorem c10_amended_witness :
    (⟨"teams", none, none, none, some "False", none⟩ : CliArgs).Export =
      (⟨some "teams", none, none, none, some "False", none⟩ :
        CliInput).Export ∧
    Event.printMsg "To Snowflake..." ∈
      (main ⟨"teams", none, none, none, some "False", some "T"⟩
        ⟨⟨200, Json.arr []⟩, ⟨"w", "d", "s"⟩, some [], false, false⟩).1 ∧
    (main ⟨"teams", none, none, some "o", none, none⟩
        ⟨⟨200, Json.arr []⟩, ⟨"w", "d", "s"⟩, some [], false, false⟩).2.2 =
      Except.ok (PyResult.str "Success") :=
  ⟨c10_amended.1 ⟨some "teams", none, none, none, some "False", none⟩
     ⟨"teams", none, none, none, some "False", none⟩ rfl,
   c10_amended.2.1 ⟨"teams", none, none, none, some "False", some "T"⟩
     ⟨⟨200, Json.arr []⟩, ⟨"w", "d", "s"⟩, some [], false, false⟩
     (apiBase ++ "teams") [] "False" rfl rfl rfl (by decide),
   (c10_amended.2.2 ⟨"teams", none, none, some "o", none, none⟩
     ⟨⟨200, Json.arr []⟩, ⟨"w", "d", "s"⟩, some [], false, false⟩
     (apiBase ++ "teams") [] rfl rfl (Or.inl rfl)).1⟩

end CFB
